import Mathlib

/-!
Verification of the RPSC study-bot core logic (adaptive planner, calibration,
diagnostic/mock quiz state machines) against its natural-language specification.
Python floats are modelled as exact rationals (ℚ); Python `round(x, n)` is
modelled as round-half-to-even on the rational value.
-/

/-- Python's builtin `max` on two rationals, written with an explicit test so
that it evaluates inside the kernel. -/
def pymax (a b : ℚ) : ℚ := if b ≤ a then a else b

/-- Python's builtin `min` on two rationals. -/
def pymin (a b : ℚ) : ℚ := if a ≤ b then a else b

theorem pymax_eq_max (a b : ℚ) : pymax a b = max a b := by
  unfold pymax; split_ifs with h
  case pos => exact (max_eq_left h).symm
  case neg => exact (max_eq_right (le_of_not_le h)).symm

theorem pymin_eq_min (a b : ℚ) : pymin a b = min a b := by
  unfold pymin; split_ifs with h
  case pos => exact (min_eq_left h).symm
  case neg => exact (min_eq_right (le_of_not_le h)).symm

/-- Association-list lookup with propositional key equality, modelling a
Python `dict` lookup (`d.get(k)`). -/
def lookupD (k : String) : List (String × ℚ) → Option ℚ
  | [] => none
  | (k1, v) :: rest => if k1 = k then some v else lookupD k rest

/-- Python `round(x, ndigits)` rounds to the nearest integer multiple of
`10^(-ndigits)`, breaking ties toward the even multiple. `rndHalfEven` is the
integer-valued core: nearest integer, ties to even. -/
def rndHalfEven (x : ℚ) : ℤ :=
  let f := ⌊x⌋
  let r := x - f
  if r < 1/2 then f
  else if 1/2 < r then f + 1
  else if f % 2 = 0 then f else f + 1

/-- Python `round(x, n)` on an exact rational value. -/
def roundTo (n : ℕ) (x : ℚ) : ℚ :=
  (rndHalfEven (x * 10 ^ n) : ℚ) / 10 ^ n

/-- A row of the `topics` table (db.py schema): only the fields read by the
planner.  `pyq_weight` and `marks_weight` are INTEGER columns with DEFAULT 0;
Paper-I topics are seeded with `pyq_weight = 0` (db.py `_seed_topics`). -/
structure Topic where
  topic_id : ℕ
  name : String
  paper : ℕ
  sectionName : String
  pyq_weight : ℚ
  marks_weight : ℚ
deriving DecidableEq

/-- `planning.py _compute_topic_priority` (lines 32-57).  `topic_accuracy` is
the profile's section→accuracy JSON map, modelled as an association list.
`topic.get('pyq_weight', 1) or 1` maps a zero (falsy) weight to 1, likewise
for `marks_weight`; the result is rounded to 3 decimal places. -/
def compute_topic_priority (topic : Topic) (topic_accuracy : List (String × ℚ))
    (streak : ℕ) (completion_ratio : ℚ) : ℚ :=
  let pyq_w : ℚ := if topic.pyq_weight = 0 then 1 else topic.pyq_weight
  let marks_w : ℚ := if topic.marks_weight = 0 then 1 else topic.marks_weight
  let acc0 : ℚ := (lookupD topic.sectionName topic_accuracy).getD (1/2)
  let acc : ℚ := pymax (1/100) (pymin 1 acc0)
  let pressure : ℚ := pymax (1/10) (1 - completion_ratio)
  let streak_mult : ℚ := 1 + (1/10) * pymax 0 (5 - (streak : ℚ))
  roundTo 3 ((1 - acc) * pyq_w * pressure * streak_mult * marks_w)

/-- The plan generator (planning.py lines 90-95) calls `_compute_topic_priority`
with `completion_ratio = topic_accuracy.get(t['section'], 0.5)`, i.e. the same
per-section accuracy value, unclamped, defaulting to 0.5. -/
def planTopicPriority (t : Topic) (topic_accuracy : List (String × ℚ))
    (streak : ℕ) : ℚ :=
  compute_topic_priority t topic_accuracy streak
    ((lookupD t.sectionName topic_accuracy).getD (1/2))

/-- The spec's priority formula, written exactly from the spec's words (§4.2):
`priority = (1 − clamp(accuracy, 0.01, 1.0)) × pyq_weight × max(0.1, 1 − completion_ratio)
× (1 + 0.1 × max(0, 5 − streak_days)) × marks_weight`. -/
def spec_priority (accuracy pyq_weight completion_ratio : ℚ) (streak_days : ℕ)
    (marks_weight : ℚ) : ℚ :=
  (1 - pymax (1/100) (pymin 1 accuracy)) * pyq_weight
    * pymax (1/10) (1 - completion_ratio)
    * (1 + (1/10) * pymax 0 (5 - (streak_days : ℚ)))
    * marks_weight

/-- A Paper-I style topic with `pyq_weight = 0` (as seeded) used to refute C1. -/
def topicC1a : Topic :=
  { topic_id := 101, name := "Rajasthan History", paper := 1,
    sectionName := "History", pyq_weight := 0, marks_weight := 1 }

/-- A topic with nonzero weights, used to exhibit the rounding discrepancy. -/
def topicC1b : Topic :=
  { topic_id := 1, name := "Cell Biology", paper := 2,
    sectionName := "SrSec", pyq_weight := 1, marks_weight := 1 }

/-- Accuracy map used in the C1 counterexample. -/
def taC1 : List (String × ℚ) := [("History", 1/3), ("SrSec", 1/3)]

/-- C1 counterexample: the computed priority does not equal the spec's formula.
For `topicC1a` (`pyq_weight = 0`) the spec formula yields 0 but the code maps
the zero weight to 1 (`or 1`) and returns 0.444; for `topicC1b` the unrounded
formula value is 4/9 while the code returns it rounded to 3 decimals. -/
theorem C1_counterexample :
    planTopicPriority topicC1a taC1 5 ≠
      spec_priority ((lookupD topicC1a.sectionName taC1).getD (1/2))
        topicC1a.pyq_weight ((lookupD topicC1a.sectionName taC1).getD (1/2)) 5
        topicC1a.marks_weight
    ∧ planTopicPriority topicC1b taC1 5 ≠
      spec_priority ((lookupD topicC1b.sectionName taC1).getD (1/2))
        topicC1b.pyq_weight ((lookupD topicC1b.sectionName taC1).getD (1/2)) 5
        topicC1b.marks_weight := by
  constructor <;>
  · simp only [planTopicPriority, compute_topic_priority, spec_priority,
      topicC1a, topicC1b, taC1, lookupD]
    norm_num [roundTo, rndHalfEven, pymax, pymin]

/-- C1 (amended): for every topic, accuracy map and streak count, the priority
computed at plan-generation time equals the spec's formula with two changes
forced by the code: a zero `pyq_weight` or `marks_weight` is first replaced by
1, and the product is rounded (half-to-even) to 3 decimal places.  The
accuracy and the completion ratio are both the per-section accuracy,
defaulting to 0.5 when absent, as the claim states. -/
theorem C1_priority_formula (t : Topic) (topic_accuracy : List (String × ℚ))
    (streak : ℕ) :
    planTopicPriority t topic_accuracy streak =
      roundTo 3 (spec_priority ((lookupD t.sectionName topic_accuracy).getD (1/2))
        (if t.pyq_weight = 0 then 1 else t.pyq_weight)
        ((lookupD t.sectionName topic_accuracy).getD (1/2)) streak
        (if t.marks_weight = 0 then 1 else t.marks_weight)) := by
  rfl

/-- One row of the `daily_calibration` table as fetched by `save_calibration`
(db.py lines 430-435): `SELECT accuracy, completion_rate, actual_hours ...
ORDER BY cal_date DESC LIMIT 3`, so the list is most-recent-first with at most
three entries, the first being the record just upserted for today. -/
structure CalRow where
  accuracy : ℚ
  completion_rate : ℚ
  actual_hours : ℚ
deriving DecidableEq

/-- The hour-adjustment step of `save_calibration` (db.py lines 445-463): the
value written back to `recommended_daily_hours` (and `daily_goal`) as a
function of the current recommended hours, the fetched last-3 rows, and
today's accuracy and completion rate.  The burnout override (3 rows all with
completion below 0.5) is evaluated last and overwrites the earlier
adjustment. -/
def save_calibration_new_hours (current_hours : ℚ) (rows : List CalRow)
    (accuracy completion_rate : ℚ) : ℚ :=
  let new_hours :=
    if 1 ≤ rows.length then
      if completion_rate < 7/10 then pymax 8 (current_hours - 1)
      else if 2 ≤ rows.length then
        let prev_acc := ((rows.get? 1).map (fun r => r.accuracy)).getD accuracy
        if 3/20 < accuracy - prev_acc then pymin 12 (current_hours + 1/2)
        else current_hours
      else current_hours
    else current_hours
  if 3 ≤ rows.length ∧ ∀ r ∈ rows.take 3, r.completion_rate < 1/2 then
    pymax 8 (current_hours * (7/10))
  else new_hours

/-- C2: a single nightly calibration adjustment step keeps
`recommended_daily_hours` inside [8.0, 12.0], provided the value before the
step lies in that interval. -/
theorem C2_hours_bounded (current_hours : ℚ) (rows : List CalRow)
    (accuracy completion_rate : ℚ)
    (hlo : 8 ≤ current_hours) (hhi : current_hours ≤ 12) :
    8 ≤ save_calibration_new_hours current_hours rows accuracy completion_rate
    ∧ save_calibration_new_hours current_hours rows accuracy completion_rate ≤ 12 := by
  unfold save_calibration_new_hours
  simp only [pymax_eq_max, pymin_eq_min]
  split_ifs <;>
    constructor <;>
    first
      | exact le_max_left _ _
      | exact max_le (by norm_num) (by linarith)
      | exact le_min (by norm_num) (by linarith)
      | exact min_le_left _ _
      | linarith

/-- C2 witness: a concrete step (completion 0.6 < 0.7 with one prior row,
starting from 10.5h) stays within the bounds. -/
theorem C2_hours_bounded_witness :
    (8 ≤ (10.5:ℚ) ∧ (10.5:ℚ) ≤ 12)
    ∧ (8 ≤ save_calibration_new_hours 10.5 [⟨0.8, 0.6, 9⟩] 0.8 0.6
       ∧ save_calibration_new_hours 10.5 [⟨0.8, 0.6, 9⟩] 0.8 0.6 ≤ 12) :=
  ⟨⟨by norm_num, by norm_num⟩,
   C2_hours_bounded 10.5 [⟨0.8, 0.6, 9⟩] 0.8 0.6 (by norm_num) (by norm_num)⟩

/-- C3: if the three fetched calibration rows (most recent first, today's
upsert included) all have completion rate below 0.5, the resulting hours are
`max(8.0, prior_hours × 0.7)`, regardless of what the decrease/increase
per-step rule would otherwise have produced (the override is evaluated after
it and overwrites it). -/
theorem C3_burnout_override (current_hours : ℚ) (rows : List CalRow)
    (accuracy completion_rate : ℚ)
    (hlen : 3 ≤ rows.length)
    (hall : ∀ r ∈ rows.take 3, r.completion_rate < 1/2) :
    save_calibration_new_hours current_hours rows accuracy completion_rate
      = pymax 8 (current_hours * (7/10)) := by
  unfold save_calibration_new_hours
  rw [if_pos ⟨hlen, hall⟩]

/-- C3 witness: three sub-0.5-completion rows with a completion rate that
would otherwise have triggered the −1.0h rule; the result is 8.4 = 12 × 0.7. -/
theorem C3_burnout_override_witness :
    (3 ≤ ([⟨0.4, 0.4, 5⟩, ⟨0.5, 0.45, 6⟩, ⟨0.6, 0.3, 4⟩] : List CalRow).length
     ∧ ∀ r ∈ ([⟨0.4, 0.4, 5⟩, ⟨0.5, 0.45, 6⟩, ⟨0.6, 0.3, 4⟩] : List CalRow).take 3,
         r.completion_rate < 1/2)
    ∧ save_calibration_new_hours 12 [⟨0.4, 0.4, 5⟩, ⟨0.5, 0.45, 6⟩, ⟨0.6, 0.3, 4⟩] 0.4 0.4
        = pymax 8 (12 * (7/10)) :=
  ⟨⟨by norm_num, by norm_num [List.take]⟩,
   C3_burnout_override 12 [⟨0.4, 0.4, 5⟩, ⟨0.5, 0.45, 6⟩, ⟨0.6, 0.3, 4⟩] 0.4 0.4
     (by norm_num) (by norm_num [List.take])⟩

/-- One row of the `questions` table (db.py schema): the fields the session
engines read. -/
structure Question where
  q_id : ℕ
  sectionName : String
  question : String
  opt_a : String
  opt_b : String
  opt_c : String
  opt_d : String
  answer_idx : ℕ
deriving DecidableEq

/-- Per-section `{correct, total}` tally held in the diagnostic state's
`results_by_section` dict. -/
structure SectionTally where
  correct : ℕ
  total : ℕ
deriving DecidableEq

/-- Python dict write `m[k] = v` for the section-tally dict: replaces the
binding if the key is present, otherwise appends it. -/
def setTally (k : String) (v : SectionTally) :
    List (String × SectionTally) → List (String × SectionTally)
  | [] => [(k, v)]
  | (k1, v1) :: rest => if k1 = k then (k, v) :: rest else (k1, v1) :: setTally k v rest

/-- Python dict read `m.get(k)` for the section-tally dict. -/
def getTally (k : String) : List (String × SectionTally) → Option SectionTally
  | [] => none
  | (k1, v) :: rest => if k1 = k then some v else getTally k rest

theorem getTally_setTally_self (k : String) (v : SectionTally)
    (m : List (String × SectionTally)) : getTally k (setTally k v m) = some v := by
  induction m with
  | nil => simp [setTally, getTally]
  | cons p rest ih =>
      obtain ⟨k1, v1⟩ := p
      by_cases h : k1 = k
      case pos => simp [setTally, getTally, h]
      case neg => simp [setTally, getTally, h, ih]

theorem getTally_setTally_ne (k k2 : String) (v : SectionTally)
    (m : List (String × SectionTally)) (h : k2 ≠ k) :
    getTally k2 (setTally k v m) = getTally k2 m := by
  induction m with
  | nil => simp [setTally, getTally, Ne.symm h]
  | cons p rest ih =>
      obtain ⟨k1, v1⟩ := p
      by_cases h1 : k1 = k
      case pos => simp [setTally, getTally, h1, Ne.symm h]
      case neg => simp [setTally, getTally, h1, ih]

/-- In-memory diagnostic session state (diagnostic.py `_active_diagnostics`
entry, lines 65-78).  The presentation-only fields `chat_id` and
`last_msg_id` are omitted; the pending `auto_skip_task` is modelled by
`timerCancelled`: `true` means the task for the current question has been
cancelled (a cancelled task's body never runs). -/
structure DiagState where
  questions : List Question
  current : ℕ
  correct : ℕ
  wrong : ℕ
  skipped : ℕ
  start_time : ℚ
  q_start : ℚ
  response_times : List ℚ
  results_by_section : List (String × SectionTally)
  timerCancelled : Bool
deriving DecidableEq

/-- A diagnostic answer callback payload: a chosen option index or the skip
button (`diag:<q_index>:<i|skip>`). -/
inductive DiagAnswer
  | choice (i : ℕ)
  | skip
deriving DecidableEq

/-- `diagnostic.py handle_diagnostic_answer` (lines 163-229) as a state
transition, for a user with an active session.  `now` is the wall-clock time
of the event; the recorded response time is `now - q_start`.  `none` models
the uncaught IndexError when the question list is shorter than the incoming
index (unreachable through the bot's own keyboards).  A mismatched index
returns the state unchanged (only an alert is shown). -/
def handle_diagnostic_answer (state : DiagState) (q_index : ℕ) (ans : DiagAnswer)
    (now : ℚ) : Option DiagState :=
  if state.current ≠ q_index then some state
  else
    match state.questions.get? q_index with
    | none => none
    | some q =>
      let s1 := { state with
        timerCancelled := true,
        response_times := state.response_times ++ [now - state.q_start] }
      let tally0 := (getTally q.sectionName s1.results_by_section).getD ⟨0, 0⟩
      let tally1 : SectionTally := ⟨tally0.correct, tally0.total + 1⟩
      match ans with
      | .skip =>
          some { s1 with
            results_by_section := setTally q.sectionName tally1 s1.results_by_section,
            skipped := s1.skipped + 1,
            current := s1.current + 1 }
      | .choice chosen =>
          if chosen = q.answer_idx then
            some { s1 with
              results_by_section := setTally q.sectionName
                ⟨tally1.correct + 1, tally1.total⟩ s1.results_by_section,
              correct := s1.correct + 1,
              current := s1.current + 1 }
          else
            some { s1 with
              results_by_section := setTally q.sectionName tally1 s1.results_by_section,
              wrong := s1.wrong + 1,
              current := s1.current + 1 }

/-- Python dict write for the mock state's `answered` dict (keys are question
indices, values the strings 'skip'/'correct'/'wrong'). -/
def setAnswered (k : ℕ) (v : String) : List (ℕ × String) → List (ℕ × String)
  | [] => [(k, v)]
  | (k1, v1) :: rest => if k1 = k then (k, v) :: rest else (k1, v1) :: setAnswered k v rest

/-- In-memory mock-test session state (questions.py `_active_mocks` entry,
lines 44-55). `chat_id` is presentation-only and omitted. -/
structure MockState where
  mock_id : String
  paper : ℕ
  questions : List Question
  current : ℕ
  correct : ℕ
  wrong : ℕ
  skipped : ℕ
  start_time : ℚ
  answered : List (ℕ × String)
deriving DecidableEq

/-- A mock answer callback payload (`mock:<mock_id>:<q_index>:<i|skip|end>`). -/
inductive MockAnswer
  | choice (i : ℕ)
  | skip
  | endTest
deriving DecidableEq

/-- `questions.py handle_mock_answer` (lines 98-154) as a state transition,
for a user with an active mock.  A stale `mock_id` leaves the state unchanged
(only an alert).  There is no check of `q_index` against `current`: the
incoming index is used as-is.  `none` models the uncaught IndexError of
`state['questions'][q_index]` (line 114) for an out-of-range index. -/
def handle_mock_answer (state : MockState) (mock_id : String) (q_index : ℕ)
    (ans : MockAnswer) : Option MockState :=
  if state.mock_id ≠ mock_id then some state
  else
    match state.questions.get? q_index with
    | none => none
    | some q =>
      match ans with
      | .endTest => some { state with current := state.questions.length }
      | .skip =>
          some { state with
            skipped := state.skipped + 1,
            answered := setAnswered q_index "skip" state.answered,
            current := state.current + 1 }
      | .choice chosen =>
          if chosen = q.answer_idx then
            some { state with
              correct := state.correct + 1,
              answered := setAnswered q_index "correct" state.answered,
              current := state.current + 1 }
          else
            some { state with
              wrong := state.wrong + 1,
              answered := setAnswered q_index "wrong" state.answered,
              current := state.current + 1 }

/-- Concrete questions used by the session counterexamples and witnesses. -/
def qHist : Question :=
  { q_id := 1, sectionName := "History", question := "Q1",
    opt_a := "a", opt_b := "b", opt_c := "c", opt_d := "d", answer_idx := 0 }

def qGeo : Question :=
  { q_id := 2, sectionName := "Geography", question := "Q2",
    opt_a := "a", opt_b := "b", opt_c := "c", opt_d := "d", answer_idx := 1 }

def qPol : Question :=
  { q_id := 3, sectionName := "Polity", question := "Q3",
    opt_a := "a", opt_b := "b", opt_c := "c", opt_d := "d", answer_idx := 2 }

/-- A mock session sitting on question index 2, used to refute C4. -/
def mockC4 : MockState :=
  { mock_id := "m1", paper := 2, questions := [qHist, qGeo, qPol],
    current := 2, correct := 1, wrong := 0, skipped := 0,
    start_time := 0, answered := [(0, "correct"), (1, "skip")] }

/-- C4 counterexample: in a mock session an incoming answer whose question
index (0) differs from the session's current index (2) is NOT a no-op —
`handle_mock_answer` has no index-mismatch check, so the stale answer is
scored again (correct goes 1 → 2) and the session advances (current 2 → 3). -/
theorem C4_counterexample :
    handle_mock_answer mockC4 "m1" 0 (MockAnswer.choice 0) ≠ some mockC4
    ∧ (handle_mock_answer mockC4 "m1" 0 (MockAnswer.choice 0)).map
        (fun s => (s.correct, s.current))
      = some (mockC4.correct + 1, mockC4.current + 1) := by
  constructor <;> decide

/-- C4 (amended): in a DIAGNOSTIC session an answer event whose question
index differs from the session's current index is a no-op: the state is
returned unchanged, so no correct/wrong/skipped count is incremented.  Mock
sessions have no such index-mismatch check (see the counterexample: the
handler uses the incoming index as-is). -/
theorem C4_diag_index_mismatch_noop (s : DiagState) (q_index : ℕ)
    (ans : DiagAnswer) (now : ℚ) (h : s.current ≠ q_index) :
    handle_diagnostic_answer s q_index ans now = some s := by
  unfold handle_diagnostic_answer
  rw [if_pos h]

/-- A diagnostic session sitting on question index 1, used as the C4 witness
and the C9 counterexample base. -/
def diagW : DiagState :=
  { questions := [qHist, qGeo], current := 1, correct := 1, wrong := 0,
    skipped := 0, start_time := 0, q_start := 0, response_times := [20],
    results_by_section := [("History", ⟨1, 1⟩)], timerCancelled := false }

/-- C4 witness: a concrete stale answer (index 0 against current index 1)
leaves the diagnostic state unchanged. -/
theorem C4_diag_index_mismatch_noop_witness :
    diagW.current ≠ 0
    ∧ handle_diagnostic_answer diagW 0 (DiagAnswer.choice 0) 30 = some diagW :=
  ⟨by decide, C4_diag_index_mismatch_noop diagW 0 (DiagAnswer.choice 0) 30 (by decide)⟩

/-- A diagnostic session sitting on question index 0 with empty tallies, used
to refute C9. -/
def diagC9 : DiagState :=
  { questions := [qHist, qGeo], current := 0, correct := 0, wrong := 0,
    skipped := 0, start_time := 0, q_start := 0, response_times := [],
    results_by_section := [], timerCancelled := false }

/-- C9 counterexample: an explicit skip does NOT leave the response-time list
and the per-section total tally unchanged — handle_diagnostic_answer appends
the elapsed time (diagnostic.py lines 188-189) and increments the section's
`total` (line 198) before the skip branch runs. -/
theorem C9_counterexample :
    (handle_diagnostic_answer diagC9 0 DiagAnswer.skip 7).map
        (fun s => (s.response_times, s.results_by_section))
      ≠ some (diagC9.response_times, diagC9.results_by_section) := by
  norm_num [handle_diagnostic_answer, diagC9, qHist, getTally, setTally]

/-- C9 (amended): on an explicit skip of the current question, `skipped` is
incremented and no correctness is recorded — `correct`, `wrong` and every
section's `correct` tally are unchanged — but the skipped question's section
`total` tally is incremented and the elapsed response time is appended to the
recorded response-time list. -/
theorem C9_skip_effect (s : DiagState) (q_index : ℕ) (q : Question) (now : ℚ)
    (hcur : s.current = q_index) (hq : s.questions.get? q_index = some q) :
    ∃ s2, handle_diagnostic_answer s q_index DiagAnswer.skip now = some s2
      ∧ s2.skipped = s.skipped + 1
      ∧ s2.correct = s.correct
      ∧ s2.wrong = s.wrong
      ∧ (∀ sec, ((getTally sec s2.results_by_section).getD ⟨0, 0⟩).correct
            = ((getTally sec s.results_by_section).getD ⟨0, 0⟩).correct)
      ∧ ((getTally q.sectionName s2.results_by_section).getD ⟨0, 0⟩).total
          = ((getTally q.sectionName s.results_by_section).getD ⟨0, 0⟩).total + 1
      ∧ s2.response_times = s.response_times ++ [now - s.q_start]
      ∧ s2.current = s.current + 1 := by
  unfold handle_diagnostic_answer
  rw [if_neg (by simp [hcur]), hq]
  refine ⟨_, rfl, rfl, rfl, rfl, ?_, ?_, rfl, rfl⟩
  case refine_1 =>
    intro sec
    by_cases hsec : sec = q.sectionName
    case pos =>
      subst hsec
      rw [getTally_setTally_self]
      rfl
    case neg =>
      rw [getTally_setTally_ne _ _ _ _ hsec]
  case refine_2 =>
    rw [getTally_setTally_self]
    rfl

/-- C9 witness: skipping the current question of `diagC9` increments
`skipped`, bumps the History total tally and records the elapsed time. -/
theorem C9_skip_effect_witness :
    (diagC9.current = 0 ∧ diagC9.questions.get? 0 = some qHist)
    ∧ ∃ s2, handle_diagnostic_answer diagC9 0 DiagAnswer.skip 7 = some s2
      ∧ s2.skipped = diagC9.skipped + 1
      ∧ s2.correct = diagC9.correct
      ∧ s2.wrong = diagC9.wrong
      ∧ (∀ sec, ((getTally sec s2.results_by_section).getD ⟨0, 0⟩).correct
            = ((getTally sec diagC9.results_by_section).getD ⟨0, 0⟩).correct)
      ∧ ((getTally qHist.sectionName s2.results_by_section).getD ⟨0, 0⟩).total
          = ((getTally qHist.sectionName diagC9.results_by_section).getD ⟨0, 0⟩).total + 1
      ∧ s2.response_times = diagC9.response_times ++ [7 - diagC9.q_start]
      ∧ s2.current = diagC9.current + 1 :=
  ⟨⟨rfl, by decide⟩, C9_skip_effect diagC9 0 qHist 7 rfl (by decide)⟩

/-- `diagnostic.py _auto_skip_after_timeout` (lines 140-160), the part after
the 90-second sleep: a cancelled task's body never runs (modelled by the
`timerCancelled` guard), and the task returns without touching state when the
session has already moved past its question index (line 143); otherwise it
counts the question as skipped and advances the index exactly once. -/
def auto_skip_after_timeout (s : DiagState) (q_index : ℕ) : DiagState :=
  if s.timerCancelled then s
  else if s.current ≠ q_index then s
  else { s with skipped := s.skipped + 1, current := s.current + 1 }

/-- The parameters of one `handle_diagnostic_answer` invocation: the callback
question index, the chosen answer, and the wall-clock arrival time. -/
structure AnswerRun where
  q_index : ℕ
  ans : DiagAnswer
  now : ℚ

/-- The atomic segments of the diagnostic event loop for one question.  The
answer handler suspends at its awaits, cutting it into three atomic pieces:
`a1` = index check, timer cancel, response-time append and section-total bump
(diagnostic.py lines 180-198, before the first await at line 202); `a2` =
scoring (lines 206-222, between awaits); `a3` = the index advance (line 227).
`tfire` is the timeout task's post-sleep body (`auto_skip_after_timeout`). -/
inductive Seg
  | a1
  | a2
  | a3
  | tfire
deriving DecidableEq

/-- Execute one atomic segment.  The Bool component records whether the
answer handler has already returned (index-mismatch rejection at line 181, or
an IndexError), in which case its later segments do nothing. -/
def execSeg (r : AnswerRun) : Seg → DiagState × Bool → DiagState × Bool
  | Seg.tfire, (s, ab) => (auto_skip_after_timeout s r.q_index, ab)
  | Seg.a1, (s, ab) =>
      if s.current ≠ r.q_index then (s, true)
      else
        let s1 := { s with
          timerCancelled := true,
          response_times := s.response_times ++ [r.now - s.q_start] }
        match s1.questions.get? r.q_index with
        | none => (s1, true)
        | some q =>
            let t0 := (getTally q.sectionName s1.results_by_section).getD ⟨0, 0⟩
            let rbs := setTally q.sectionName ⟨t0.correct, t0.total + 1⟩ s1.results_by_section
            ({ s1 with results_by_section := rbs }, ab)
  | Seg.a2, (s, ab) =>
      if ab then (s, ab)
      else
        match s.questions.get? r.q_index with
        | none => (s, true)
        | some q =>
          match r.ans with
          | DiagAnswer.skip => ({ s with skipped := s.skipped + 1 }, ab)
          | DiagAnswer.choice chosen =>
              if chosen = q.answer_idx then
                let t0 := (getTally q.sectionName s.results_by_section).getD ⟨0, 0⟩
                let rbs := setTally q.sectionName ⟨t0.correct + 1, t0.total⟩ s.results_by_section
                ({ s with correct := s.correct + 1, results_by_section := rbs }, ab)
              else ({ s with wrong := s.wrong + 1 }, ab)
  | Seg.a3, (s, ab) =>
      if ab then (s, ab) else ({ s with current := s.current + 1 }, ab)

/-- Run a sequence of atomic segments from a state (answer handler not yet
returned). -/
def execSegs (r : AnswerRun) (segs : List Seg) (s : DiagState) : DiagState :=
  (segs.foldl (fun p seg => execSeg r seg p) (s, false)).1

/-- All interleavings of a single atom into a sequence: the positions at
which the timeout task's body can be scheduled among the answer handler's
atomic segments. -/
def insertions {α : Type} (a : α) : List α → List (List α)
  | [] => [[a]]
  | x :: xs => (a :: x :: xs) :: (insertions a xs).map (fun l => x :: l)

/-- Number of questions resolved so far (each question is counted exactly
once, as correct, wrong or skipped). -/
def resolvedCount (s : DiagState) : ℕ := s.correct + s.wrong + s.skipped

/-- C5: for a session sitting on question `r.q_index` with a live (not yet
cancelled) timeout timer, (a) the timeout alone records the question as
skipped and advances the index exactly once, and (b) under every interleaving
of the timeout body with the three atomic segments of an answer handler for
the same question, the index advances exactly once and exactly one of the
correct/wrong/skipped counters is incremented — an answer and the timeout can
never both resolve the same question, because the timeout body checks the
current index before acting and the answer handler's first segment cancels
the pending timer. -/
theorem C5_timeout_resolves_once (s : DiagState) (r : AnswerRun)
    (hcur : s.current = r.q_index)
    (hcanc : s.timerCancelled = false)
    (hlen : r.q_index < s.questions.length) :
    ((auto_skip_after_timeout s r.q_index).skipped = s.skipped + 1
      ∧ (auto_skip_after_timeout s r.q_index).current = s.current + 1)
    ∧ ∀ tr ∈ insertions Seg.tfire [Seg.a1, Seg.a2, Seg.a3],
        (execSegs r tr s).current = s.current + 1
        ∧ resolvedCount (execSegs r tr s) = resolvedCount s + 1 := by
  constructor
  case left =>
    constructor <;> simp [auto_skip_after_timeout, hcanc, hcur]
  case right =>
    intro tr htr
    simp only [insertions, List.map, List.mem_cons, List.not_mem_nil, or_false] at htr
    obtain ⟨qi, ans, now⟩ := r
    simp only at hcur hlen ⊢
    obtain ⟨q, hq2⟩ : ∃ q, s.questions[qi]? = some q :=
      ⟨s.questions.get ⟨qi, hlen⟩, List.getElem?_eq_getElem hlen⟩
    rcases htr with h | h | h | h <;> subst h <;>
      rcases ans with ⟨chosen⟩ | _ <;>
      [ (by_cases hch : chosen = q.answer_idx <;>
          constructor <;>
          simp [execSegs, execSeg, auto_skip_after_timeout, resolvedCount,
            hcanc, hcur, hq2, hch, Nat.succ_ne_self] <;>
          omega);
        (constructor <;>
          simp [execSegs, execSeg, auto_skip_after_timeout, resolvedCount,
            hcanc, hcur, hq2, Nat.succ_ne_self] <;>
          omega);
        (by_cases hch : chosen = q.answer_idx <;>
          constructor <;>
          simp [execSegs, execSeg, auto_skip_after_timeout, resolvedCount,
            hcanc, hcur, hq2, hch, Nat.succ_ne_self] <;>
          omega);
        (constructor <;>
          simp [execSegs, execSeg, auto_skip_after_timeout, resolvedCount,
            hcanc, hcur, hq2, Nat.succ_ne_self] <;>
          omega);
        (by_cases hch : chosen = q.answer_idx <;>
          constructor <;>
          simp [execSegs, execSeg, auto_skip_after_timeout, resolvedCount,
            hcanc, hcur, hq2, hch, Nat.succ_ne_self] <;>
          omega);
        (constructor <;>
          simp [execSegs, execSeg, auto_skip_after_timeout, resolvedCount,
            hcanc, hcur, hq2, Nat.succ_ne_self] <;>
          omega);
        (by_cases hch : chosen = q.answer_idx <;>
          constructor <;>
          simp [execSegs, execSeg, auto_skip_after_timeout, resolvedCount,
            hcanc, hcur, hq2, hch, Nat.succ_ne_self] <;>
          omega);
        (constructor <;>
          simp [execSegs, execSeg, auto_skip_after_timeout, resolvedCount,
            hcanc, hcur, hq2, Nat.succ_ne_self] <;>
          omega)]

/-- A one-question diagnostic session with a live timer, used as C5 witness. -/
def diagC5 : DiagState :=
  { questions := [qHist], current := 0, correct := 0, wrong := 0,
    skipped := 0, start_time := 0, q_start := 0, response_times := [],
    results_by_section := [], timerCancelled := false }

/-- C5 witness: for the concrete session `diagC5` and a skip answer arriving
at time 3, the timeout alone and every interleaving with the answer handler
resolve the question exactly once. -/
theorem C5_timeout_resolves_once_witness :
    (diagC5.current = (0 : ℕ) ∧ diagC5.timerCancelled = false
      ∧ 0 < diagC5.questions.length)
    ∧ (((auto_skip_after_timeout diagC5 0).skipped = diagC5.skipped + 1
        ∧ (auto_skip_after_timeout diagC5 0).current = diagC5.current + 1)
      ∧ ∀ tr ∈ insertions Seg.tfire [Seg.a1, Seg.a2, Seg.a3],
          (execSegs ⟨0, DiagAnswer.skip, 3⟩ tr diagC5).current = diagC5.current + 1
          ∧ resolvedCount (execSegs ⟨0, DiagAnswer.skip, 3⟩ tr diagC5)
              = resolvedCount diagC5 + 1) :=
  ⟨⟨rfl, rfl, by decide⟩,
   C5_timeout_resolves_once diagC5 ⟨0, DiagAnswer.skip, 3⟩ rfl rfl (by decide)⟩

/-- config.py `NEGATIVE_MARKING_RATIO = 1 / 3`. -/
def negative_marking : ℚ := 1 / 3

/-- The score columns computed and stored by db.py `save_mock`
(lines 621-638): `score_raw = correct`, `score_net = correct - wrong * ratio`
stored unrounded (only the returned value is rounded for display). -/
structure MockScores where
  score_raw : ℚ
  score_net : ℚ
deriving DecidableEq

def save_mock_scores (correct wrong : ℕ) : MockScores :=
  { score_raw := (correct : ℚ),
    score_net := (correct : ℚ) - (wrong : ℚ) * negative_marking }

/-- The result numbers computed by questions.py `_finish_mock`
(lines 157-206): displayed net score rounded to 2 decimals, accuracy =
correct/attempted as a percentage rounded to 1 decimal, percentage score =
net score over the total question count, rounded to 1 decimal. -/
structure MockSummary where
  total_q : ℕ
  attempted : ℕ
  score_raw : ℕ
  score_net : ℚ
  accuracy : ℚ
  pct_score : ℚ
deriving DecidableEq

def finish_mock_summary (questions : List Question) (correct wrong : ℕ) :
    MockSummary :=
  let total_q := questions.length
  let attempted := correct + wrong
  let score_net := roundTo 2 ((correct : ℚ) - (wrong : ℚ) * negative_marking)
  { total_q := total_q,
    attempted := attempted,
    score_raw := correct,
    score_net := score_net,
    accuracy := roundTo 1 (if 0 < attempted then (correct : ℚ) / attempted * 100 else 0),
    pct_score := if 0 < total_q then roundTo 1 (score_net / total_q * 100) else 0 }

/-- A ten-question bank for the concrete mock-scoring instance. -/
def mockQs10 : List Question := List.replicate 10 qHist

/-- C6: the stored net mock score is `correct − wrong × (1/3)`, never floored
at zero (it can go negative), the raw score is `correct`, and for
correct=8, wrong=2, total=10 the displayed net score is 7.33, the displayed
percentage score is net/total = 73.3%, and the displayed accuracy is
8/(8+2) = 80%. -/
theorem C6_mock_scoring :
    (∀ correct wrong : ℕ,
        (save_mock_scores correct wrong).score_net
            = (correct : ℚ) - (wrong : ℚ) * (1 / 3)
        ∧ (save_mock_scores correct wrong).score_raw = (correct : ℚ))
    ∧ (save_mock_scores 0 3).score_net < 0
    ∧ (finish_mock_summary mockQs10 8 2).score_net = 733 / 100
    ∧ (finish_mock_summary mockQs10 8 2).pct_score = 733 / 10
    ∧ (finish_mock_summary mockQs10 8 2).accuracy = 80 := by
  refine ⟨fun correct wrong => ⟨rfl, rfl⟩, ?_, ?_, ?_, ?_⟩ <;>
    norm_num [finish_mock_summary, save_mock_scores, mockQs10, negative_marking,
      roundTo, rndHalfEven]

/-- Which branch of the daily plan generator produced the plan. -/
inductive PlanKind
  | restDay
  | adaptive
deriving DecidableEq

/-- One block of a generated daily plan (the dict fields shared by the
adaptive and rest-day blocks that `save_daily_plan` reads). -/
structure PlanBlock where
  label : String
  sectionName : String
  paper : ℕ
  hours : ℚ
  emoji : String
  status : String
  topic_name : String
  topic_id : Option ℕ
deriving DecidableEq

/-- The fixed two-block rest-day plan of planning.py
`_generate_rest_day_plan` (lines 168-191). -/
def rest_day_blocks : List PlanBlock :=
  [{ label := "10:00 AM: Relax & Recharge 🧘", sectionName := "Review",
     paper := 0, hours := 1/2, emoji := "☀️", status := "pending",
     topic_name := "No heavy study today. Chill out!", topic_id := none },
   { label := "06:00 PM: Weekly Light Review", sectionName := "Review",
     paper := 0, hours := 1, emoji := "📝", status := "pending",
     topic_name := "Just flip through your notes.", topic_id := none }]

/-- The rest-day selection of the daily plan generator (planning.py lines
73-85; the body at lines 60-165 is the plan generator that bot.py and
scheduler.py import as `generate_daily_plan`, its def line being absent from
the source file).  `days_since` is `(datetime.now() - created).days` when the
user row exists and its `created_at` parses; `none` covers the missing-row
and parse-failure paths, where the try/except falls through to the adaptive
branch.  The adaptive branch's weighted-random block list is abstracted as
the `adaptive` argument. -/
def generate_daily_plan_run (days_since : Option ℤ) (adaptive : List PlanBlock) :
    PlanKind × List PlanBlock :=
  match days_since with
  | some d =>
      if 0 < d ∧ d % 14 = 0 then (PlanKind.restDay, rest_day_blocks)
      else (PlanKind.adaptive, adaptive)
  | none => (PlanKind.adaptive, adaptive)

/-- C7: plan generation short-circuits to the fixed two-block rest-day plan
exactly when `days_since_creation > 0` and `days_since_creation % 14 == 0`;
otherwise (including when no user row exists) the adaptive plan is
produced. -/
theorem C7_rest_day_iff (d : ℤ) (adaptive : List PlanBlock) :
    ((generate_daily_plan_run (some d) adaptive).1 = PlanKind.restDay
      ↔ (0 < d ∧ d % 14 = 0))
    ∧ ((generate_daily_plan_run (some d) adaptive).1 = PlanKind.restDay →
        (generate_daily_plan_run (some d) adaptive).2 = rest_day_blocks)
    ∧ (generate_daily_plan_run none adaptive).1 = PlanKind.adaptive := by
  have e1 : generate_daily_plan_run (some d) adaptive
      = if 0 < d ∧ d % 14 = 0 then (PlanKind.restDay, rest_day_blocks)
        else (PlanKind.adaptive, adaptive) := rfl
  by_cases h : 0 < d ∧ d % 14 = 0
  case pos =>
    rw [e1, if_pos h]
    exact ⟨⟨fun _ => h, fun _ => rfl⟩, fun _ => rfl, rfl⟩
  case neg =>
    rw [e1, if_neg h]
    exact ⟨⟨fun hc => PlanKind.noConfusion hc, fun hc => absurd hc h⟩,
           fun hc => PlanKind.noConfusion hc, rfl⟩

/-- C7 witness: day 14 selects the rest-day plan (and its fixed blocks);
day 13 does not. -/
theorem C7_rest_day_iff_witness :
    (generate_daily_plan_run (some 14) []).1 = PlanKind.restDay
    ∧ (generate_daily_plan_run (some 14) []).2 = rest_day_blocks
    ∧ (generate_daily_plan_run (some 13) []).1 = PlanKind.adaptive :=
  ⟨(C7_rest_day_iff 14 []).1.mpr (by decide),
   (C7_rest_day_iff 14 []).2.1 ((C7_rest_day_iff 14 []).1.mpr (by decide)),
   by decide⟩

/-- One row of the `daily_plan` table (db.py schema). -/
structure PlanRow where
  user_id : ℕ
  plan_date : String
  block_index : ℕ
  topic_id : Option ℕ
  label : String
  sectionName : String
  paper : ℕ
  hours : ℚ
  emoji : String
  status : String
deriving DecidableEq

/-- The WHERE clause `user_id=? AND plan_date=?` used by both the DELETE and
the SELECT of today's plan. -/
def isPlanFor (user_id : ℕ) (today : String) (row : PlanRow) : Bool :=
  row.user_id == user_id && row.plan_date == today

/-- The INSERT loop of db.py `save_daily_plan` (lines 517-525):
`for i, b in enumerate(blocks)`, one row per block, `status='pending'`. -/
def insertPlanRows (user_id : ℕ) (today : String) : ℕ → List PlanBlock → List PlanRow
  | _, [] => []
  | i, b :: rest =>
      { user_id := user_id, plan_date := today, block_index := i,
        topic_id := b.topic_id, label := b.label, sectionName := b.sectionName,
        paper := b.paper, hours := b.hours, emoji := b.emoji,
        status := "pending" } :: insertPlanRows user_id today (i + 1) rest

/-- db.py `save_daily_plan` (lines 510-526) on a table modelled as a list of
rows in insertion order: DELETE all rows for (user, today), then INSERT one
row per block. -/
def save_daily_plan (table : List PlanRow) (user_id : ℕ) (today : String)
    (blocks : List PlanBlock) : List PlanRow :=
  table.filter (fun row => !(isPlanFor user_id today row))
    ++ insertPlanRows user_id today 0 blocks

theorem filter_not_filter_self {α : Type} (p : α → Bool) (l : List α) :
    (l.filter fun a => !(p a)).filter p = [] := by
  induction l with
  | nil => rfl
  | cons x xs ih =>
      by_cases h : p x
      case pos => simp [List.filter, h, ih]
      case neg => simp [List.filter, h, ih]

theorem insertPlanRows_filter (user_id : ℕ) (today : String) (i : ℕ)
    (blocks : List PlanBlock) :
    (insertPlanRows user_id today i blocks).filter (isPlanFor user_id today)
      = insertPlanRows user_id today i blocks := by
  induction blocks generalizing i with
  | nil => rfl
  | cons b rest ih => simp [insertPlanRows, List.filter, isPlanFor, ih]

theorem insertPlanRows_mem (user_id : ℕ) (today : String) (i : ℕ)
    (blocks : List PlanBlock) :
    ∀ row ∈ insertPlanRows user_id today i blocks,
      row.user_id = user_id ∧ row.plan_date = today := by
  induction blocks generalizing i with
  | nil => intro row hrow; cases hrow
  | cons b rest ih =>
      intro row hrow
      rcases hrow with _ | ⟨_, hmem⟩
      case head => exact ⟨rfl, rfl⟩
      case _ => exact ih (i + 1) row hmem

theorem insertPlanRows_filter_not (user_id : ℕ) (today : String) (i : ℕ)
    (blocks : List PlanBlock) :
    (insertPlanRows user_id today i blocks).filter
        (fun row => !(isPlanFor user_id today row)) = [] := by
  rw [List.filter_eq_nil_iff]
  intro a ha
  have h2 := insertPlanRows_mem user_id today i blocks a ha
  simp [isPlanFor, h2.1, h2.2]

theorem insertPlanRows_length (user_id : ℕ) (today : String) (i : ℕ)
    (blocks : List PlanBlock) :
    (insertPlanRows user_id today i blocks).length = blocks.length := by
  induction blocks generalizing i with
  | nil => rfl
  | cons b rest ih => simp [insertPlanRows, ih]

theorem insertPlanRows_status (user_id : ℕ) (today : String) (i : ℕ)
    (blocks : List PlanBlock) :
    ∀ row ∈ insertPlanRows user_id today i blocks, row.status = "pending" := by
  induction blocks generalizing i with
  | nil => intro row hrow; cases hrow
  | cons b rest ih =>
      intro row hrow
      rcases hrow with _ | ⟨_, hmem⟩
      case head => rfl
      case _ => exact ih (i + 1) row hmem

/-- C8: saving a daily plan first deletes every row for (user, today) and
then inserts exactly one 'pending' row per block, so (a) the rows for
(user, today) afterwards are exactly the freshly inserted ones, one per
block, all 'pending', (b) rows of other users/dates are untouched, and
(c) regenerating for the same user and date replaces rather than appends:
the stored block count equals the new template length, not a cumulative
total. -/
theorem C8_save_daily_plan_replaces (table : List PlanRow) (user_id : ℕ)
    (today : String) (blocks blocks2 : List PlanBlock) :
    (save_daily_plan table user_id today blocks).filter (isPlanFor user_id today)
        = insertPlanRows user_id today 0 blocks
    ∧ ((save_daily_plan table user_id today blocks).filter
        (isPlanFor user_id today)).length = blocks.length
    ∧ (∀ row ∈ (save_daily_plan table user_id today blocks).filter
          (isPlanFor user_id today), row.status = "pending")
    ∧ (save_daily_plan table user_id today blocks).filter
          (fun row => !(isPlanFor user_id today row))
        = table.filter (fun row => !(isPlanFor user_id today row))
    ∧ ((save_daily_plan (save_daily_plan table user_id today blocks) user_id
          today blocks2).filter (isPlanFor user_id today)).length
        = blocks2.length := by
  have key : ∀ t : List PlanRow,
      (save_daily_plan t user_id today blocks2).filter (isPlanFor user_id today)
        = insertPlanRows user_id today 0 blocks2 := by
    intro t
    unfold save_daily_plan
    rw [List.filter_append, filter_not_filter_self, insertPlanRows_filter,
      List.nil_append]
  have key1 : (save_daily_plan table user_id today blocks).filter
      (isPlanFor user_id today) = insertPlanRows user_id today 0 blocks := by
    unfold save_daily_plan
    rw [List.filter_append, filter_not_filter_self, insertPlanRows_filter,
      List.nil_append]
  refine ⟨key1, ?_, ?_, ?_, ?_⟩
  case refine_1 => rw [key1, insertPlanRows_length]
  case refine_2 =>
    intro row hrow
    rw [key1] at hrow
    exact insertPlanRows_status user_id today 0 blocks row hrow
  case refine_3 =>
    unfold save_daily_plan
    rw [List.filter_append, insertPlanRows_filter_not, List.append_nil,
      List.filter_filter]
    simp
  case refine_4 =>
    rw [key (save_daily_plan table user_id today blocks), insertPlanRows_length]

/-- The externally visible outcome of diagnostic.py `start_diagnostic`
(lines 52-92): the user's in-memory registry entry afterwards, the `users`
table `onboarded` flag afterwards, whether the "questions not found"
unavailability message was sent, and whether a profile row was written
(`save_diagnostic_results` runs only at `_finish_diagnostic`, never here). -/
structure StartDiagResult where
  entry : Option DiagState
  onboarded : Bool
  unavailable_message : Bool
  profile_saved : Bool
deriving DecidableEq

/-- diagnostic.py `start_diagnostic`: with an empty question bank it sends
the unavailability message, marks the user onboarded and returns without
creating a session entry; otherwise it installs a fresh session state
(lines 65-78) and leaves the onboarded flag as it was. -/
def start_diagnostic (questions : List Question) (entry0 : Option DiagState)
    (onboarded0 : Bool) (now : ℚ) : StartDiagResult :=
  if questions = [] then
    { entry := entry0, onboarded := true,
      unavailable_message := true, profile_saved := false }
  else
    { entry := some
        { questions := questions, current := 0, correct := 0, wrong := 0,
          skipped := 0, start_time := now, q_start := now,
          response_times := [], results_by_section := [],
          timerCancelled := false },
      onboarded := onboarded0, unavailable_message := false,
      profile_saved := false }

/-- diagnostic.py `has_active_diagnostic` (lines 325-326): membership of the
user's entry in the in-memory registry. -/
def has_active_diagnostic (entry : Option DiagState) : Bool := entry.isSome

/-- C10: starting a diagnostic with an empty question bank sends the
unavailability message, marks the user onboarded anyway (bypassing the
onboarding diagnostic) with no profile seeded, and creates no in-memory
session entry, so `has_active_diagnostic` is false afterwards for a user who
had no active session. -/
theorem C10_empty_bank (entry0 : Option DiagState) (onboarded0 : Bool) (now : ℚ)
    (h : entry0 = none) :
    (start_diagnostic [] entry0 onboarded0 now).onboarded = true
    ∧ (start_diagnostic [] entry0 onboarded0 now).unavailable_message = true
    ∧ (start_diagnostic [] entry0 onboarded0 now).profile_saved = false
    ∧ (start_diagnostic [] entry0 onboarded0 now).entry = entry0
    ∧ has_active_diagnostic (start_diagnostic [] entry0 onboarded0 now).entry
        = false := by
  subst h
  exact ⟨rfl, rfl, rfl, rfl, rfl⟩

/-- C10 witness: for a not-yet-onboarded user with no active session, the
empty-bank start marks them onboarded and leaves no active diagnostic. -/
theorem C10_empty_bank_witness :
    ((none : Option DiagState) = none)
    ∧ ((start_diagnostic [] none false 0).onboarded = true
      ∧ (start_diagnostic [] none false 0).unavailable_message = true
      ∧ (start_diagnostic [] none false 0).profile_saved = false
      ∧ (start_diagnostic [] none false 0).entry = none
      ∧ has_active_diagnostic (start_diagnostic [] none false 0).entry = false) :=
  ⟨rfl, C10_empty_bank none false 0 rfl⟩
